import Mathlib

/-!
Shallow embedding of the VaultUSD peg-stability simulator
(`src/sim/peg_simulation.py`).

Python floats are modelled as exact rationals (`ℚ`); the IEEE value
`float('inf')` returned by `get_vault_health` when a vault has zero debt is
modelled by the dedicated sentinel constructor `Health.inf`.  Mutation of the
`VaultUSDSimulator` object is modelled by explicit state passing: each method
that mutates `self` returns the updated simulator value.  `list.remove` in
Python removes the first element equal (structural dataclass equality) to its
argument, which is exactly `List.erase` with the derived `DecidableEq`.
-/

namespace VaultUSD

/-- `Vault` dataclass: a user vault (`collateral_eth`, `debt_susd`, `owner`). -/
structure Vault where
  collateral_eth : ℚ
  debt_susd : ℚ
  owner : String
deriving DecidableEq

/-- The value returned by `get_vault_health` and stored as
`collateralization_ratio`: either the `float('inf')` sentinel or a finite
rational ratio. -/
inductive Health where
  | inf : Health
  | fin : ℚ → Health
deriving DecidableEq

/-- `h < q` for a health value against a finite threshold, with IEEE
semantics: infinity is not below any finite threshold. -/
def Health.blt : Health → ℚ → Bool
  | .inf, _ => false
  | .fin h, q => decide (h < q)

/-- `h ≥ q` for a health value against a finite threshold: infinity is above
every finite threshold. -/
def Health.bge : Health → ℚ → Bool
  | .inf, _ => true
  | .fin h, q => decide (q ≤ h)

/-- `SystemState` dataclass: the overall system state snapshot. -/
structure SystemState where
  total_collateral_eth : ℚ
  total_debt_susd : ℚ
  eth_price_usd : ℚ
  collateralization_ratio : Health
  timestamp : ℕ
deriving DecidableEq

/-- The mutable state of a `VaultUSDSimulator` object: the current ETH price,
the list of open vaults, and the recorded history. -/
structure VaultUSDSimulator where
  eth_price : ℚ
  vaults : List Vault
  history : List SystemState
deriving DecidableEq

/-- Class constant `LIQUIDATION_THRESHOLD = 1.1` (110%). -/
def LIQUIDATION_THRESHOLD : ℚ := 11 / 10

/-- `VaultUSDSimulator.__init__(initial_eth_price)`. -/
def VaultUSDSimulator.new (initial_eth_price : ℚ) : VaultUSDSimulator :=
  { eth_price := initial_eth_price, vaults := [], history := [] }

/-- `create_vault(owner, collateral_eth, debt_susd)`: constructs the vault,
appends it to `self.vaults`, and returns it. -/
def VaultUSDSimulator.create_vault (sim : VaultUSDSimulator) (owner : String)
    (collateral_eth debt_susd : ℚ) : VaultUSDSimulator × Vault :=
  let vault : Vault := ⟨collateral_eth, debt_susd, owner⟩
  ({ sim with vaults := sim.vaults ++ [vault] }, vault)

/-- The health computation of `get_vault_health` as a function of the price it
reads from `self.eth_price`: `inf` when `debt_susd == 0`, otherwise
`collateral_eth * price / debt_susd`. -/
def healthAt (price : ℚ) (vault : Vault) : Health :=
  if vault.debt_susd = 0 then Health.inf
  else Health.fin (vault.collateral_eth * price / vault.debt_susd)

/-- `get_vault_health(vault)`: reads `self.eth_price`, mutates nothing. -/
def VaultUSDSimulator.get_vault_health (sim : VaultUSDSimulator) (vault : Vault) : Health :=
  healthAt sim.eth_price vault

/-- The test of `is_liquidatable` as a function of the price: `False` when
`debt_susd == 0`, otherwise `get_vault_health(vault) < LIQUIDATION_THRESHOLD`. -/
def liquidatableAt (price : ℚ) (vault : Vault) : Bool :=
  if vault.debt_susd = 0 then false
  else (healthAt price vault).blt LIQUIDATION_THRESHOLD

/-- `is_liquidatable(vault)`: reads `self.eth_price`, mutates nothing. -/
def VaultUSDSimulator.is_liquidatable (sim : VaultUSDSimulator) (vault : Vault) : Bool :=
  liquidatableAt sim.eth_price vault

/-- `liquidate_vault(vault)`: returns `False` without mutation when the vault
is not liquidatable; otherwise removes the first vault equal to `vault` from
`self.vaults` (Python `list.remove`) and returns `True`. -/
def VaultUSDSimulator.liquidate_vault (sim : VaultUSDSimulator) (vault : Vault) :
    VaultUSDSimulator × Bool :=
  if sim.is_liquidatable vault then
    ({ sim with vaults := sim.vaults.erase vault }, true)
  else (sim, false)

/-- `update_price(new_price)`: sets `self.eth_price`, collects the list of
liquidatable vaults, then calls `liquidate_vault` on each in order. -/
def VaultUSDSimulator.update_price (sim : VaultUSDSimulator) (new_price : ℚ) :
    VaultUSDSimulator :=
  let sim1 : VaultUSDSimulator := { sim with eth_price := new_price }
  let vaults_to_liquidate := sim1.vaults.filter (fun v => sim1.is_liquidatable v)
  vaults_to_liquidate.foldl (fun s v => (s.liquidate_vault v).1) sim1

/-- `get_system_state(timestamp)`: sums collateral and debt over
`self.vaults`, computes the aggregate ratio (with the `inf` sentinel when the
total debt is zero), and returns a `SystemState`; mutates nothing. -/
def VaultUSDSimulator.get_system_state (sim : VaultUSDSimulator) (timestamp : ℕ) :
    SystemState :=
  let total_collateral := (sim.vaults.map Vault.collateral_eth).sum
  let total_debt := (sim.vaults.map Vault.debt_susd).sum
  let ratio := if total_debt = 0 then Health.inf
    else Health.fin ((total_collateral * sim.eth_price) / total_debt)
  { total_collateral_eth := total_collateral
    total_debt_susd := total_debt
    eth_price_usd := sim.eth_price
    collateralization_ratio := ratio
    timestamp := timestamp }

/-- `record_state(timestamp)`: appends the current system state to
`self.history`. -/
def VaultUSDSimulator.record_state (sim : VaultUSDSimulator) (timestamp : ℕ) :
    VaultUSDSimulator :=
  { sim with history := sim.history ++ [sim.get_system_state timestamp] }

/-- `simulate_price_shock()`: opens the three scenario vaults at price 2000,
records the initial state, then for each price in the shock sequence updates
the price and records the state. -/
def simulate_price_shock : VaultUSDSimulator :=
  let sim0 := VaultUSDSimulator.new 2000
  let sim1 := (sim0.create_vault "user1" 10 10000).1
  let sim2 := (sim1.create_vault "user2" 5 5000).1
  let sim3 := (sim2.create_vault "user3" 3 3000).1
  let sim4 := sim3.record_state 0
  let prices : List ℚ := [2000, 1800, 1600, 1400, 1200, 1000, 800]
  (prices.enum.foldl (fun s ip => (s.update_price ip.2).record_state (ip.1 + 1)) sim4)

/-!
Helper lemmas shared by the claim theorems.
-/

/-- Folding `liquidate_vault` over a list of vaults that are all liquidatable
at the simulator's (fixed) price erases each of them in order and changes
nothing else. -/
theorem foldl_liquidate (ws : List Vault) :
    ∀ sim : VaultUSDSimulator, (∀ w ∈ ws, liquidatableAt sim.eth_price w = true) →
      ws.foldl (fun s v => (s.liquidate_vault v).1) sim =
        { sim with vaults := ws.foldl List.erase sim.vaults } := by
  induction ws with
  | nil => intro sim _; rfl
  | cons w ws ih =>
    intro sim hall
    have hw : sim.is_liquidatable w = true := hall w (List.mem_cons_self w ws)
    have hstep : (sim.liquidate_vault w).1 = { sim with vaults := sim.vaults.erase w } := by
      simp [VaultUSDSimulator.liquidate_vault, hw]
    simp only [List.foldl_cons, hstep]
    exact ih _ (fun w' hw' => hall w' (List.mem_cons_of_mem _ hw'))

/-- Erasing a sequence of elements that all satisfy `p` from a list headed by
an element with `p x = false` leaves the head in place. -/
theorem foldl_erase_cons_of_neg (p : Vault → Bool) (x : Vault) (hx : p x = false)
    (ws : List Vault) :
    ∀ l : List Vault, (∀ w ∈ ws, p w = true) →
      ws.foldl List.erase (x :: l) = x :: ws.foldl List.erase l := by
  induction ws with
  | nil => intro l _; rfl
  | cons w ws ih =>
    intro l hall
    have hne : x ≠ w := by
      intro h
      rw [h, hall w (List.mem_cons_self w ws)] at hx
      exact Bool.noConfusion hx
    simp only [List.foldl_cons]
    rw [List.erase_cons_tail (not_beq_of_ne hne)]
    exact ih _ (fun w' hw' => hall w' (List.mem_cons_of_mem _ hw'))

/-- Erasing, in order, every element of `l.filter p` from `l` leaves exactly
the elements not satisfying `p`, in their original order. -/
theorem foldl_erase_filter (p : Vault → Bool) :
    ∀ l : List Vault, (l.filter p).foldl List.erase l = l.filter (fun v => ! p v) := by
  intro l
  induction l with
  | nil => rfl
  | cons x l ih =>
    cases hx : p x with
    | true =>
      rw [List.filter_cons_of_pos hx]
      simp only [List.foldl_cons, List.erase_cons_head]
      rw [ih, List.filter_cons_of_neg]
      simp [hx]
    | false =>
      rw [List.filter_cons_of_neg (by simp [hx])]
      rw [foldl_erase_cons_of_neg p x hx _ l (fun w hw => (List.mem_filter.mp hw).2)]
      rw [ih, List.filter_cons_of_pos (by simp [hx])]

/-- Characterization of `update_price`: it sets the price, keeps exactly the
vaults that are not liquidatable at the new price (in order), and leaves the
history unchanged. -/
theorem update_price_eq (sim : VaultUSDSimulator) (p : ℚ) :
    sim.update_price p =
      { eth_price := p,
        vaults := sim.vaults.filter (fun v => ! liquidatableAt p v),
        history := sim.history } := by
  calc sim.update_price p
      = (sim.vaults.filter (fun v => liquidatableAt p v)).foldl
          (fun s v => (s.liquidate_vault v).1)
          { eth_price := p, vaults := sim.vaults, history := sim.history } := rfl
    _ = { eth_price := p,
          vaults := (sim.vaults.filter (fun v => liquidatableAt p v)).foldl
            List.erase sim.vaults,
          history := sim.history } :=
        foldl_liquidate _ _ (fun w hw => (List.mem_filter.mp hw).2)
    _ = { eth_price := p,
          vaults := sim.vaults.filter (fun v => ! liquidatableAt p v),
          history := sim.history } := by
        rw [foldl_erase_filter]

/-- C1: for every registry state and every price, `update_price(new_price)`
removes exactly the positions that are liquidatable at the new price in the
pre-scan registry — the surviving vaults are precisely those not liquidatable
at the new price, in their original order — and after the call no remaining
vault satisfies `is_liquidatable` at the new price. -/
theorem update_price_removes_exactly_liquidatable (sim : VaultUSDSimulator) (p : ℚ) :
    (sim.update_price p).vaults = sim.vaults.filter (fun v => ! liquidatableAt p v) ∧
    ∀ v ∈ (sim.update_price p).vaults, (sim.update_price p).is_liquidatable v = false := by
  refine ⟨(update_price_eq sim p ▸ rfl), ?_⟩
  intro v hv
  rw [update_price_eq] at hv ⊢
  show liquidatableAt p v = false
  simpa using (List.mem_filter.mp hv).2

/-- Witness for C1: at price 1000, the vault with collateral 10 and debt
10000 (health 1.0) is removed and the vault with collateral 1 and debt 1
(health 1000) survives and is not liquidatable. -/
theorem update_price_removes_exactly_liquidatable_witness :
    ((VaultUSDSimulator.mk 2000 [⟨10, 10000, "u1"⟩, ⟨1, 1, "u2"⟩] []).update_price
        1000).vaults = [⟨1, 1, "u2"⟩] ∧
    ((VaultUSDSimulator.mk 2000 [⟨10, 10000, "u1"⟩, ⟨1, 1, "u2"⟩] []).update_price
        1000).is_liquidatable ⟨1, 1, "u2"⟩ = false := by
  have h := update_price_removes_exactly_liquidatable
    (VaultUSDSimulator.mk 2000 [⟨10, 10000, "u1"⟩, ⟨1, 1, "u2"⟩] []) 1000
  have h1 : ((VaultUSDSimulator.mk 2000 [⟨10, 10000, "u1"⟩, ⟨1, 1, "u2"⟩] []).update_price
      1000).vaults = [⟨1, 1, "u2"⟩] := by
    rw [h.1]
    norm_num [List.filter, liquidatableAt, healthAt, Health.blt, LIQUIDATION_THRESHOLD]
  refine ⟨h1, h.2 _ ?_⟩
  rw [h1]
  exact List.mem_singleton_self _

/-- C2 counterexample: `create_vault` with negative collateral and negative
debt raises no error and appends the vault to the registry, so the claim that
it fails with `InvalidAmount` and adds nothing is false. -/
theorem create_vault_negative_counterexample :
    ((VaultUSDSimulator.new 2000).create_vault "alice" (-1) (-2)).1.vaults
      = [⟨-1, -2, "alice"⟩] := rfl

/-- C2 amended: `create_vault` performs no validation at all — for every
owner and every collateral and liability amount, negative ones included, it
appends the new position to the registry, returns it, and changes nothing
else. -/
theorem create_vault_always_appends (sim : VaultUSDSimulator) (owner : String)
    (collateral_eth debt_susd : ℚ) :
    (sim.create_vault owner collateral_eth debt_susd).1.vaults
        = sim.vaults ++ [⟨collateral_eth, debt_susd, owner⟩] ∧
    (sim.create_vault owner collateral_eth debt_susd).2
        = ⟨collateral_eth, debt_susd, owner⟩ ∧
    (sim.create_vault owner collateral_eth debt_susd).1.eth_price = sim.eth_price ∧
    (sim.create_vault owner collateral_eth debt_susd).1.history = sim.history :=
  ⟨rfl, rfl, rfl, rfl⟩

/-- C3 counterexample: `update_price(-1)` raises no error, sets the shared
price to the negative value, and liquidates the vault whose health at the
negative price is negative — both the price and the registry change, so the
claim that a non-positive price fails with `InvalidPrice` leaving state
unchanged is false. -/
theorem update_price_nonpositive_counterexample :
    ((VaultUSDSimulator.mk 2000 [⟨10, 10000, "u1"⟩] []).update_price (-1)).eth_price = -1 ∧
    ((VaultUSDSimulator.mk 2000 [⟨10, 10000, "u1"⟩] []).update_price (-1)).vaults = [] := by
  rw [update_price_eq]
  refine ⟨rfl, ?_⟩
  norm_num [List.filter, liquidatableAt, healthAt, Health.blt, LIQUIDATION_THRESHOLD]

/-- C3 amended: `update_price` accepts every price, non-positive prices
included: it sets the shared price to `new_price` and performs the ordinary
liquidation sweep at that price, leaving the history unchanged. -/
theorem update_price_nonpositive_no_error (sim : VaultUSDSimulator) (p : ℚ)
    (_hp : p ≤ 0) :
    (sim.update_price p).eth_price = p ∧
    (sim.update_price p).vaults = sim.vaults.filter (fun v => ! liquidatableAt p v) ∧
    (sim.update_price p).history = sim.history := by
  rw [update_price_eq]
  exact ⟨rfl, rfl, rfl⟩

/-- Witness for C3 amended, at price −5 on an empty registry. -/
theorem update_price_nonpositive_no_error_witness :
    ((VaultUSDSimulator.mk 2000 [] []).update_price (-5)).eth_price = -5 ∧
    ((VaultUSDSimulator.mk 2000 [] []).update_price (-5)).vaults
        = ([] : List Vault).filter (fun v => ! liquidatableAt (-5) v) ∧
    ((VaultUSDSimulator.mk 2000 [] []).update_price (-5)).history = [] :=
  update_price_nonpositive_no_error (VaultUSDSimulator.mk 2000 [] []) (-5) (by norm_num)

/-- C4: for every position and price `p > 0`, `is_liquidatable` returns
`false` whenever the liability is zero, and for positive liability it returns
`true` exactly when `collateral_amount × p / liability_amount < 1.1`. -/
theorem is_liquidatable_spec (sim : VaultUSDSimulator) (v : Vault)
    (_hp : 0 < sim.eth_price) :
    (v.debt_susd = 0 → sim.is_liquidatable v = false) ∧
    (0 < v.debt_susd →
      (sim.is_liquidatable v = true ↔
        v.collateral_eth * sim.eth_price / v.debt_susd < 11 / 10)) := by
  constructor
  · intro h0
    simp [VaultUSDSimulator.is_liquidatable, liquidatableAt, h0]
  · intro hd
    simp [VaultUSDSimulator.is_liquidatable, liquidatableAt, healthAt, Health.blt,
      LIQUIDATION_THRESHOLD, ne_of_gt hd]

/-- Witness for C4: at price 2000, a vault with collateral 10 and debt 10000
is liquidatable exactly when 10 × 2000 / 10000 < 1.1 (it is not). -/
theorem is_liquidatable_spec_witness :
    ((VaultUSDSimulator.mk 2000 [] []).is_liquidatable ⟨10, 10000, "u1"⟩ = true ↔
      (10 : ℚ) * 2000 / 10000 < 11 / 10) := by
  have h := is_liquidatable_spec (VaultUSDSimulator.mk 2000 [] []) ⟨10, 10000, "u1"⟩
    (by norm_num)
  exact h.2 (by norm_num)

/-- C5: `get_vault_health` returns the infinite sentinel when the liability is
zero and `(collateral_amount × price) / liability_amount` otherwise; it is
pure — its result depends only on the price it reads and the vault argument,
never on the registry or history, and it performs no mutation (in this
embedding it returns only a `Health` value). -/
theorem get_vault_health_spec (sim : VaultUSDSimulator) (v : Vault) :
    (v.debt_susd = 0 → sim.get_vault_health v = Health.inf) ∧
    (v.debt_susd ≠ 0 →
      sim.get_vault_health v
        = Health.fin (v.collateral_eth * sim.eth_price / v.debt_susd)) ∧
    (∀ sim2 : VaultUSDSimulator, sim2.eth_price = sim.eth_price →
      sim2.get_vault_health v = sim.get_vault_health v) := by
  refine ⟨?_, ?_, ?_⟩
  · intro h0
    simp [VaultUSDSimulator.get_vault_health, healthAt, h0]
  · intro h0
    simp [VaultUSDSimulator.get_vault_health, healthAt, h0]
  · intro sim2 hpe
    simp [VaultUSDSimulator.get_vault_health, hpe]

/-- Witness for C5: a zero-debt vault has infinite health; a vault with
collateral 4 and debt 2 at price 5 has health 4 × 5 / 2; the health does not
depend on the registry contents. -/
theorem get_vault_health_spec_witness :
    ((VaultUSDSimulator.mk 5 [] []).get_vault_health ⟨3, 0, "a"⟩ = Health.inf) ∧
    ((VaultUSDSimulator.mk 5 [] []).get_vault_health ⟨4, 2, "a"⟩
        = Health.fin ((4 : ℚ) * 5 / 2)) ∧
    ((VaultUSDSimulator.mk 5 [⟨1, 1, "b"⟩] []).get_vault_health ⟨4, 2, "a"⟩
        = (VaultUSDSimulator.mk 5 [] []).get_vault_health ⟨4, 2, "a"⟩) :=
  ⟨(get_vault_health_spec (VaultUSDSimulator.mk 5 [] []) ⟨3, 0, "a"⟩).1 rfl,
    (get_vault_health_spec (VaultUSDSimulator.mk 5 [] []) ⟨4, 2, "a"⟩).2.1 (by norm_num),
    (get_vault_health_spec (VaultUSDSimulator.mk 5 [] []) ⟨4, 2, "a"⟩).2.2
      (VaultUSDSimulator.mk 5 [⟨1, 1, "b"⟩] []) rfl⟩

/-- C6: `get_system_state` returns a snapshot whose totals are the sums of
collateral and debt over all open vaults, whose price and timestamp are the
current price and the supplied index, and whose aggregate ratio is
`(total_collateral × price) / total_liability` for positive total liability
and the infinite sentinel for zero total liability; it is pure — in this
embedding it returns only a `SystemState` and leaves the simulator value
untouched. -/
theorem get_system_state_spec (sim : VaultUSDSimulator) (ts : ℕ) :
    (sim.get_system_state ts).total_collateral_eth
        = (sim.vaults.map Vault.collateral_eth).sum ∧
    (sim.get_system_state ts).total_debt_susd
        = (sim.vaults.map Vault.debt_susd).sum ∧
    (sim.get_system_state ts).eth_price_usd = sim.eth_price ∧
    (sim.get_system_state ts).timestamp = ts ∧
    ((sim.vaults.map Vault.debt_susd).sum = 0 →
      (sim.get_system_state ts).collateralization_ratio = Health.inf) ∧
    (0 < (sim.vaults.map Vault.debt_susd).sum →
      (sim.get_system_state ts).collateralization_ratio
        = Health.fin (((sim.vaults.map Vault.collateral_eth).sum * sim.eth_price)
            / (sim.vaults.map Vault.debt_susd).sum)) := by
  refine ⟨rfl, rfl, rfl, rfl, ?_, ?_⟩
  · intro h0
    simp [VaultUSDSimulator.get_system_state, h0]
  · intro hpos
    simp [VaultUSDSimulator.get_system_state, ne_of_gt hpos]

/-- Witness for C6 on a two-vault registry at price 2000 with sequence
index 3. -/
theorem get_system_state_spec_witness :
    ((VaultUSDSimulator.mk 2000 [⟨10, 10000, "u1"⟩, ⟨5, 5000, "u2"⟩] []).get_system_state
        3).timestamp = 3 ∧
    ((VaultUSDSimulator.mk 2000 [⟨10, 10000, "u1"⟩, ⟨5, 5000, "u2"⟩] []).get_system_state
        3).collateralization_ratio
      = Health.fin ((([⟨10, 10000, "u1"⟩, ⟨5, 5000, "u2"⟩] : List Vault).map
            Vault.collateral_eth).sum * 2000
          / (([⟨10, 10000, "u1"⟩, ⟨5, 5000, "u2"⟩] : List Vault).map Vault.debt_susd).sum) := by
  have h := get_system_state_spec
    (VaultUSDSimulator.mk 2000 [⟨10, 10000, "u1"⟩, ⟨5, 5000, "u2"⟩] []) 3
  exact ⟨h.2.2.2.1, h.2.2.2.2.2 (by norm_num)⟩

/-- C7: for a position present in the registry, `liquidate_vault` returns
`false` with no mutation when the position is not liquidatable at the current
price, and when it is liquidatable it returns `true` and removes exactly that
position (the first equal entry), shrinking the registry by one and leaving
the price and history unchanged. -/
theorem liquidate_vault_spec (sim : VaultUSDSimulator) (v : Vault)
    (hv : v ∈ sim.vaults) :
    (sim.is_liquidatable v = false → sim.liquidate_vault v = (sim, false)) ∧
    (sim.is_liquidatable v = true →
      (sim.liquidate_vault v).2 = true ∧
      (sim.liquidate_vault v).1.vaults = sim.vaults.erase v ∧
      (sim.liquidate_vault v).1.vaults.length + 1 = sim.vaults.length ∧
      (sim.liquidate_vault v).1.eth_price = sim.eth_price ∧
      (sim.liquidate_vault v).1.history = sim.history) := by
  constructor
  · intro h
    simp [VaultUSDSimulator.liquidate_vault, h]
  · intro h
    have heq : sim.liquidate_vault v = ({ sim with vaults := sim.vaults.erase v }, true) := by
      simp [VaultUSDSimulator.liquidate_vault, h]
    rw [heq]
    refine ⟨rfl, rfl, ?_, rfl, rfl⟩
    show (sim.vaults.erase v).length + 1 = sim.vaults.length
    have hlen := List.length_erase_of_mem hv
    have hpos := List.length_pos_of_mem hv
    omega

/-- Witness for C7: at price 1000 the single vault with collateral 10 and
debt 10000 (health 1.0) is liquidatable; `liquidate_vault` returns `true` and
empties the registry. -/
theorem liquidate_vault_spec_witness :
    ((VaultUSDSimulator.mk 1000 [⟨10, 10000, "u1"⟩] []).liquidate_vault
        ⟨10, 10000, "u1"⟩).2 = true ∧
    ((VaultUSDSimulator.mk 1000 [⟨10, 10000, "u1"⟩] []).liquidate_vault
        ⟨10, 10000, "u1"⟩).1.vaults
      = ([⟨10, 10000, "u1"⟩] : List Vault).erase ⟨10, 10000, "u1"⟩ ∧
    ((VaultUSDSimulator.mk 1000 [⟨10, 10000, "u1"⟩] []).liquidate_vault
        ⟨10, 10000, "u1"⟩).1.vaults.length + 1 = 1 := by
  have h := liquidate_vault_spec (VaultUSDSimulator.mk 1000 [⟨10, 10000, "u1"⟩] [])
    ⟨10, 10000, "u1"⟩ (List.mem_singleton_self _)
  have hl : (VaultUSDSimulator.mk 1000 [⟨10, 10000, "u1"⟩] []).is_liquidatable
      ⟨10, 10000, "u1"⟩ = true := by
    norm_num [VaultUSDSimulator.is_liquidatable, liquidatableAt, healthAt, Health.blt,
      LIQUIDATION_THRESHOLD]
  obtain ⟨ha, hb, hc, -, -⟩ := h.2 hl
  exact ⟨ha, hb, hc⟩

/-- C8: calling `update_price` twice in immediate succession with the same
valid price removes nothing on the second call — the full simulator state
after the second call equals the state after the first. -/
theorem update_price_idempotent (sim : VaultUSDSimulator) (p : ℚ) (_hp : 0 < p) :
    (sim.update_price p).update_price p = sim.update_price p := by
  rw [update_price_eq sim p, update_price_eq]
  simp only [List.filter_filter, Bool.and_self]

/-- Witness for C8 at price 1000 on a two-vault registry. -/
theorem update_price_idempotent_witness :
    ((VaultUSDSimulator.mk 2000 [⟨10, 10000, "u1"⟩, ⟨1, 1, "u2"⟩] []).update_price
        1000).update_price 1000
      = (VaultUSDSimulator.mk 2000 [⟨10, 10000, "u1"⟩, ⟨1, 1, "u2"⟩] []).update_price 1000 :=
  update_price_idempotent (VaultUSDSimulator.mk 2000 [⟨10, 10000, "u1"⟩, ⟨1, 1, "u2"⟩] [])
    1000 (by norm_num)

/-- C10: `update_price` only sets the price and removes whole positions — the
history log is unchanged, and the surviving vaults form a sublist of the
original registry, so every surviving position keeps its owner, collateral and
liability exactly as before. -/
theorem update_price_frame (sim : VaultUSDSimulator) (p : ℚ) :
    (sim.update_price p).history = sim.history ∧
    (sim.update_price p).eth_price = p ∧
    List.Sublist (sim.update_price p).vaults sim.vaults := by
  rw [update_price_eq]
  exact ⟨rfl, rfl, List.filter_sublist sim.vaults⟩

/-- C9: the `simulate_price_shock` scenario — three vaults of identical
health profile opened at price 2000, prices driven through
2000, 1800, 1600, 1400, 1200, 1000, 800.  All three positions survive every
update at a price ≥ 1100 (total debt stays 18000 through the update at 1200),
all three are removed together at the update to 1000 (total debt drops from
18000 straight to 0), and the final state has an empty registry, zero total
liability and the infinite aggregate-ratio sentinel. -/
theorem simulate_price_shock_spec :
    simulate_price_shock.vaults = [] ∧
    simulate_price_shock.history.map SystemState.total_debt_susd
      = [18000, 18000, 18000, 18000, 18000, 18000, 0, 0] ∧
    simulate_price_shock.history.map SystemState.total_collateral_eth
      = [18, 18, 18, 18, 18, 18, 0, 0] ∧
    simulate_price_shock.history.map SystemState.eth_price_usd
      = [2000, 2000, 1800, 1600, 1400, 1200, 1000, 800] ∧
    simulate_price_shock.history.map SystemState.collateralization_ratio
      = [Health.fin 2, Health.fin 2, Health.fin (9 / 5), Health.fin (8 / 5),
          Health.fin (7 / 5), Health.fin (6 / 5), Health.inf, Health.inf] := by
  norm_num [simulate_price_shock, VaultUSDSimulator.new, VaultUSDSimulator.create_vault,
    VaultUSDSimulator.record_state, VaultUSDSimulator.get_system_state,
    VaultUSDSimulator.update_price, VaultUSDSimulator.liquidate_vault,
    VaultUSDSimulator.is_liquidatable, liquidatableAt, healthAt, Health.blt,
    LIQUIDATION_THRESHOLD, List.filter, List.erase, List.enum, List.enumFrom]

end VaultUSD
